import Mathlib

/-!
Shallow embedding of the validation and retry helpers of the
gpttutor_tests Playwright suite, and proofs of the testable
properties stated in its specification.

Conventions of the embedding:
* asynchronous operations are modelled as pure functions; an operation
  that may reject is a value of `Except String`;
* JavaScript numbers used in delay and geometry computations are
  modelled as rationals (the computations involved are exact);
* string lengths are code-point counts, which coincide with the
  JavaScript `length` on the ASCII data involved.
-/

namespace GPTTutor

/-! ## String primitives modelling the JavaScript string operations used -/

/-- Models `hay.startsWith(needle)` on exploded strings. -/
def listStartsWith : List Char → List Char → Bool
  | _, [] => true
  | [], _ :: _ => false
  | a :: as, b :: bs => a == b && listStartsWith as bs

/-- Models substring containment (`hay.includes(needle)`) on exploded strings. -/
def listIncludes : List Char → List Char → Bool
  | [], needle => needle.isEmpty
  | a :: as, needle => listStartsWith (a :: as) needle || listIncludes as needle

/-- Models `s.toLowerCase()` (ASCII lowering, which covers all patterns used). -/
def strToLower (s : String) : String := String.mk (s.data.map Char.toLower)

/-- Trims whitespace from both ends of an exploded string. -/
def listTrim (l : List Char) : List Char :=
  ((l.dropWhile Char.isWhitespace).reverse.dropWhile Char.isWhitespace).reverse

/-- Models `s.trim()`. -/
def strTrim (s : String) : String := String.mk (listTrim s.data)

/-- Models `hay.includes(needle)`. -/
def strIncludes (hay needle : String) : Bool := listIncludes hay.toList needle.toList

/-- Models `hay.toLowerCase().includes(needle.toLowerCase())`. -/
def includesCI (hay needle : String) : Bool := strIncludes (strToLower hay) (strToLower needle)

/-- Models the JavaScript `||` chain on nullable strings: `null` and the
empty string are falsy, so `a || b` keeps `a` only when it is a non-empty
string. -/
def jsOrStr (a b : Option String) : Option String :=
  match a with
  | some s => if s = "" then b else some s
  | none => b

/-! ## Retry helper (src/tests/helpers/retry-helper.ts)

`retry` runs `operation` for `attempt = 1 .. maxRetries`; a failing
attempt that is not the last computes
`min(baseDelay * backoffMultiplier ^ (attempt - 1), maxDelay)` and
sleeps for that long before the next attempt; the last failing attempt
rethrows its error.  The embedding records, besides the outcome, how
many times the operation was invoked and the list of computed delays.
The `Option` in the error of the outcome models the nullable
`lastError` variable (`none` is the `null` thrown when the loop body
never ran, i.e. `maxRetries = 0`). -/

structure RetryOptions where
  maxRetries : Nat
  baseDelay : ℚ
  maxDelay : ℚ
  backoffMultiplier : ℚ

def DEFAULT_RETRY_OPTIONS : RetryOptions :=
  { maxRetries := 3, baseDelay := 500, maxDelay := 2000, backoffMultiplier := 2 }

structure RetryTrace (ε α : Type) where
  outcome : Except (Option ε) α
  attempts : Nat
  delays : List ℚ

/-- The delay computed after a failed attempt (source lines 38-41). -/
def computeDelay (c : RetryOptions) (attempt : Nat) : ℚ :=
  min (c.baseDelay * c.backoffMultiplier ^ (attempt - 1)) c.maxDelay

/-- The `for` loop of `retry`, by recursion on the remaining number of
iterations (`fuel = maxRetries - attempt + 1` at every call). -/
def retryLoop {ε α : Type} (c : RetryOptions) (op : Nat → Except ε α)
    (lastError : Option ε) (attempt : Nat) : Nat → RetryTrace ε α
  | 0 => ⟨Except.error lastError, 0, []⟩
  | fuel + 1 =>
    match op attempt with
    | Except.ok a => ⟨Except.ok a, 1, []⟩
    | Except.error e =>
      if attempt = c.maxRetries then
        ⟨Except.error (some e), 1, []⟩
      else
        let t := retryLoop c op (some e) (attempt + 1) fuel
        ⟨t.outcome, t.attempts + 1, computeDelay c attempt :: t.delays⟩

/-- `retry(operation, options)` with the merged configuration `c`;
`op k` is the outcome of the `k`-th invocation of `operation`
(attempts are numbered from 1, as in the source). -/
def retry {ε α : Type} (c : RetryOptions) (op : Nat → Except ε α) : RetryTrace ε α :=
  retryLoop c op none 1 c.maxRetries

lemma retryLoop_attempts_pos {ε α : Type} (c : RetryOptions) (op : Nat → Except ε α)
    (lastError : Option ε) (attempt fuel : Nat) (h : 1 ≤ fuel) :
    1 ≤ (retryLoop c op lastError attempt fuel).attempts := by
  cases fuel with
  | zero => omega
  | succ n =>
    simp only [retryLoop]
    cases op attempt with
    | ok a => simp
    | error e =>
      by_cases hA : attempt = c.maxRetries
      · simp [hA]
      · simp [hA]

lemma retryLoop_allFail {ε : Type} {α : Type} (c : RetryOptions) (es : Nat → ε)
    (fuel : Nat) :
    ∀ attempt lastError, 1 ≤ fuel → attempt + fuel = c.maxRetries + 1 →
      (retryLoop (ε := ε) (α := α) c (fun k => Except.error (es k)) lastError attempt fuel).attempts = fuel ∧
      (retryLoop (ε := ε) (α := α) c (fun k => Except.error (es k)) lastError attempt fuel).outcome =
        Except.error (some (es c.maxRetries)) := by
  induction fuel with
  | zero => intro attempt lastError h1 _; omega
  | succ n ih =>
    intro attempt lastError _ h2
    by_cases hA : attempt = c.maxRetries
    · have hn : n = 0 := by omega
      subst hn
      simp [retryLoop, hA]
    · have hn : 1 ≤ n := by omega
      obtain ⟨ha, ho⟩ := ih (attempt + 1) (some (es attempt)) hn (by omega)
      simp only [retryLoop, hA, if_false]
      exact ⟨by rw [ha], ho⟩

lemma retryLoop_delays {ε α : Type} (c : RetryOptions) (op : Nat → Except ε α)
    (fuel : Nat) :
    ∀ attempt lastError, attempt + fuel = c.maxRetries + 1 →
      (retryLoop c op lastError attempt fuel).delays =
        (List.range ((retryLoop c op lastError attempt fuel).attempts - 1)).map
          (fun j => computeDelay c (attempt + j)) := by
  induction fuel with
  | zero => intro attempt lastError _; simp [retryLoop]
  | succ n ih =>
    intro attempt lastError h2
    cases hop : op attempt with
    | ok a => simp [retryLoop, hop]
    | error e =>
      by_cases hA : attempt = c.maxRetries
      · subst hA
        simp [retryLoop, hop]
      · have hn : 1 ≤ n := by omega
        have hpos := retryLoop_attempts_pos c op (some e) (attempt + 1) n hn
        obtain ⟨m, hm⟩ : ∃ m, (retryLoop c op (some e) (attempt + 1) n).attempts = m + 1 :=
          ⟨(retryLoop c op (some e) (attempt + 1) n).attempts - 1, by omega⟩
        have hrec := ih (attempt + 1) (some e) (by omega)
        simp only [retryLoop, hop, hA, if_false]
        rw [hrec, hm]
        simp only [Nat.add_sub_cancel, Nat.succ_sub_one, List.range_succ_eq_map,
          List.map_cons, List.map_map]
        congr 1
        apply List.map_congr_left
        intro j _
        simp only [Function.comp]
        congr 1
        omega

/-- C1: for every RetryOptions configuration whose attempt budget
(`maxRetries` in the source, called maxAttempts in the specification)
is N ≥ 1, and every operation that fails on all attempts, `retry`
invokes the operation exactly N times and the error it finally
propagates is the one produced by the N-th (last) attempt. -/
theorem retry_allFail_invokes_maxRetries {ε α : Type} (c : RetryOptions) (es : Nat → ε)
    (h : 1 ≤ c.maxRetries) :
    (retry (α := α) c (fun k => Except.error (es k))).attempts = c.maxRetries ∧
    (retry (α := α) c (fun k => Except.error (es k))).outcome =
      Except.error (some (es c.maxRetries)) :=
  retryLoop_allFail c es c.maxRetries 1 none h (by omega)

/-- Witness for C1 at the default configuration (maxRetries = 3) and an
operation failing with the attempt number as its error. -/
theorem retry_allFail_invokes_maxRetries_witness :
    1 ≤ DEFAULT_RETRY_OPTIONS.maxRetries ∧
    (retry (α := Unit) DEFAULT_RETRY_OPTIONS (fun k => Except.error (toString k))).attempts =
      DEFAULT_RETRY_OPTIONS.maxRetries ∧
    (retry (α := Unit) DEFAULT_RETRY_OPTIONS (fun k => Except.error (toString k))).outcome =
      Except.error (some (toString DEFAULT_RETRY_OPTIONS.maxRetries)) :=
  ⟨by decide,
   retry_allFail_invokes_maxRetries DEFAULT_RETRY_OPTIONS (fun k => toString k) (by decide)⟩

/-- C2: for any configuration and any operation, the delay computed
after the k-th failed attempt (the (k-1)-th entry of the delay trace)
equals min(baseDelay * backoffMultiplier ^ (k-1), maxDelay), and no
computed delay ever exceeds maxDelay. -/
theorem retry_delay_formula {ε α : Type} (c : RetryOptions) (op : Nat → Except ε α) :
    (retry c op).delays =
      (List.range ((retry c op).attempts - 1)).map
        (fun k => min (c.baseDelay * c.backoffMultiplier ^ k) c.maxDelay) ∧
    ∀ d ∈ (retry c op).delays, d ≤ c.maxDelay := by
  have h := retryLoop_delays c op c.maxRetries 1 none (by omega)
  have hmap : ∀ j : Nat,
      computeDelay c (1 + j) = min (c.baseDelay * c.backoffMultiplier ^ j) c.maxDelay := by
    intro j
    simp [computeDelay, Nat.add_sub_cancel_left]
  simp only [retry]
  constructor
  · rw [h]
    apply List.map_congr_left
    intro j _
    exact hmap j
  · intro d hd
    rw [h] at hd
    obtain ⟨j, _, rfl⟩ := List.mem_map.mp hd
    rw [hmap j]
    exact min_le_right _ _

/-- Witness for C2: with the default configuration and a permanently
failing operation the first computed delay is 500 and is below the
2000 maxDelay. -/
theorem retry_delay_formula_witness :
    (500 : ℚ) ∈ (retry (α := Unit) DEFAULT_RETRY_OPTIONS
        (fun _ => Except.error ("boom" : String))).delays ∧
    (500 : ℚ) ≤ DEFAULT_RETRY_OPTIONS.maxDelay := by
  have hmem : (500 : ℚ) ∈ (retry (α := Unit) DEFAULT_RETRY_OPTIONS
      (fun _ => Except.error ("boom" : String))).delays := by
    norm_num [retry, retryLoop, DEFAULT_RETRY_OPTIONS, computeDelay, min_def]
  exact ⟨hmem,
    (retry_delay_formula (ε := String) (α := Unit) DEFAULT_RETRY_OPTIONS
      (fun _ => Except.error "boom")).2 500 hmem⟩

/-- C9: when the attempt budget is 1, `retry` performs exactly one
invocation, computes no delay, and on failure propagates the single
attempt's error. -/
theorem retry_single_attempt {ε α : Type} (c : RetryOptions) (op : Nat → Except ε α)
    (h : c.maxRetries = 1) :
    (retry c op).attempts = 1 ∧ (retry c op).delays = [] ∧
    ∀ e : ε, op 1 = Except.error e → (retry c op).outcome = Except.error (some e) := by
  cases hop : op 1 with
  | ok a =>
    refine ⟨by simp [retry, retryLoop, h, hop], by simp [retry, retryLoop, h, hop], ?_⟩
    intro e he
    exact absurd he (by simp)
  | error e =>
    refine ⟨by simp [retry, retryLoop, h, hop], by simp [retry, retryLoop, h, hop], ?_⟩
    intro e' he
    cases he
    simp [retry, retryLoop, h, hop]

/-- Witness for C9 at a concrete single-attempt configuration. -/
theorem retry_single_attempt_witness :
    ({ maxRetries := 1, baseDelay := 500, maxDelay := 2000,
       backoffMultiplier := 2 } : RetryOptions).maxRetries = 1 ∧
    (retry (α := Unit) ⟨1, 500, 2000, 2⟩ (fun _ => Except.error "boom")).attempts = 1 ∧
    (retry (α := Unit) ⟨1, 500, 2000, 2⟩ (fun _ => Except.error "boom")).delays = [] ∧
    (retry (α := Unit) ⟨1, 500, 2000, 2⟩ (fun _ => Except.error "boom")).outcome =
      Except.error (some "boom") := by
  have h := retry_single_attempt (α := Unit) ⟨1, 500, 2000, 2⟩
    (fun _ => Except.error "boom") rfl
  exact ⟨rfl, h.1, h.2.1, h.2.2 "boom" rfl⟩

/-! ## Tooltip and section validators (tests/helpers/tooltip-checker.ts)

The page is modelled by the raw data the validators read from it.  Every
awaited page operation may reject: a rejecting read is an
`Except.error msg`, and the validators catch such exceptions exactly
where the source's try/catch does. -/

/-- One located tooltip element: the results of the four awaited reads
the loop body performs on it (a `none` inside `Except.ok` is a `null`
return, e.g. a missing attribute). -/
structure TooltipElemIO where
  textContent : Except String (Option String)
  dataTooltip : Except String (Option String)
  title : Except String (Option String)
  ariaLabel : Except String (Option String)

structure TooltipDetail where
  term : String
  tooltip : String
  isValid : Bool
  error : Option String

structure TooltipValidationResult where
  isValid : Bool
  tooltipCount : Nat
  validTooltips : Nat
  errors : List String
  details : List TooltipDetail

/-- The placeholder denylist of `validateTooltips` (source lines 95-102). -/
def tooltipPlaceholderPatterns : List String :=
  ["No description available", "No tooltip available", "Click for more info",
   "Hover for details", "Loading...", "Please wait..."]

/-- Models `a || rest` where `a` is an already-awaited nullable string
and `rest` is the (possibly rejecting) evaluation of the right operand,
performed only when `a` is falsy. -/
def jsOrRead (a : Option String) (rest : Except String (Option String)) :
    Except String (Option String) :=
  match a with
  | some s => if s = "" then rest else Except.ok (some s)
  | none => rest

/-- The awaited reads of the loop body for one tooltip: `textContent()`
then `getAttribute('data-tooltip') || getAttribute('title') ||
getAttribute('aria-label') || ''` (later reads are short-circuited).
Returns the pair (term source text, tooltip attribute text). -/
def readTooltipFields (t : TooltipElemIO) : Except String (Option String × String) := do
  let termRaw ← t.textContent
  let dt ← t.dataTooltip
  let v ← jsOrRead dt (do
    let ti ← t.title
    jsOrRead ti t.ariaLabel)
  pure (termRaw, v.getD "")

/-- The pure validation of one tooltip (source lines 77-114), given the
raw text content and the resolved attribute text. -/
def tooltipDetailOf (termRaw : Option String) (tooltipText : String) : TooltipDetail :=
  let term := (termRaw.map strTrim).getD ""
  let tooltip := strTrim tooltipText
  if term = "" then
    ⟨term, tooltip, false, some "Missing term text"⟩
  else if term.length < 2 then
    ⟨term, tooltip, false, some "Term too short (minimum 2 characters)"⟩
  else if tooltip = "" then
    ⟨term, tooltip, false, some "Missing tooltip content"⟩
  else if tooltip.length < 15 then
    ⟨term, tooltip, false,
      some ("Tooltip too short (" ++ toString tooltip.length ++ " chars, minimum 15)")⟩
  else if tooltipPlaceholderPatterns.any (fun pat => includesCI tooltip pat) then
    ⟨term, tooltip, false,
      some ("Tooltip contains placeholder text: \"" ++ tooltip ++ "\"")⟩
  else
    ⟨term, tooltip, true, none⟩

/-- The push condition `!detail.isValid && detail.error` (a truthy error
is a present, non-empty string). -/
def pushesError (d : TooltipDetail) : Bool :=
  !d.isValid && (match d.error with
    | some m => !(m == "")
    | none => false)

/-- Accumulated state of the validation loop; `thrown` is set when an
awaited read rejected, aborting the loop at that element. -/
structure TooltipLoopOutcome where
  valid : Nat
  errors : List String
  details : List TooltipDetail
  thrown : Option String

/-- The `for` loop of `validateTooltips` over the located elements. -/
def processTooltips : List TooltipElemIO → TooltipLoopOutcome
  | [] => ⟨0, [], [], none⟩
  | t :: ts =>
    match readTooltipFields t with
    | Except.error msg => ⟨0, [], [], some msg⟩
    | Except.ok (termRaw, tooltipText) =>
      let d := tooltipDetailOf termRaw tooltipText
      let rest := processTooltips ts
      ⟨(if d.isValid then 1 else 0) + rest.valid,
       (if pushesError d then [d.term ++ ": " ++ d.error.getD ""] else []) ++ rest.errors,
       d :: rest.details,
       rest.thrown⟩

/-- The tooltip data reachable through each selector of the fallback
chain (`span[class*="tooltip"]`, then `[data-tooltip]`, then `[title]`);
each `count()` call may itself reject. -/
structure TooltipPageIO where
  bySpanClass : Except String (List TooltipElemIO)
  byDataAttr : Except String (List TooltipElemIO)
  byTitle : Except String (List TooltipElemIO)

/-- The selector fallback of `validateTooltips` (source lines 46-58): the
first selector with a non-zero count wins. -/
def locateTooltips (p : TooltipPageIO) : Except String (List TooltipElemIO) := do
  let a ← p.bySpanClass
  if a.length ≠ 0 then pure a
  else
    let b ← p.byDataAttr
    if b.length ≠ 0 then pure b
    else p.byTitle

/-- `validateTooltips(page)` (source lines 28-138).  An exception at any
awaited point lands in the catch block, which appends
`Error checking tooltips: msg` to the errors accumulated so far and
returns the result object in its current state (isValid still false). -/
def validateTooltips (p : TooltipPageIO) : TooltipValidationResult :=
  match locateTooltips p with
  | Except.error msg =>
    ⟨false, 0, 0, ["Error checking tooltips: " ++ msg], []⟩
  | Except.ok located =>
    if located.length = 0 then
      ⟨false, 0, 0, ["No tooltips found in response"], []⟩
    else
      let out := processTooltips located
      match out.thrown with
      | some msg =>
        ⟨false, located.length, out.valid,
         out.errors ++ ["Error checking tooltips: " ++ msg], out.details⟩
      | none =>
        ⟨decide (0 < out.valid) && out.errors.isEmpty, located.length, out.valid,
         out.errors, out.details⟩

/-! ## Section validator (tests/helpers/tooltip-checker.ts, validateSection) -/

structure SectionValidationResult where
  isValid : Bool
  sectionName : String
  content : Option String
  error : Option String
  characterCount : Nat

/-- The placeholder denylist of `validateSection` (source lines 183-195). -/
def sectionPlaceholderPatterns : List String :=
  ["No answer available", "No content available", "No strategy available",
   "No story available", "No tools available", "No prompts available",
   "No concepts available", "Loading...", "Please wait...", "Coming soon...",
   "Under construction"]

/-- `validateSection(page, sectionName, selectors, minLength)` (source
lines 144-219).  `found` is the (possibly rejecting) outcome of the
selector fallback loop and the visibility re-check; `rawContent` is the
(possibly rejecting) `textContent()` read on the found section's parent.
A rejection lands in the catch block, which records
`Error validating section: msg` and returns the result as is. -/
def validateSection (sectionName : String) (found : Except String Bool)
    (rawContent : Except String (Option String)) (minLength : Nat) :
    SectionValidationResult :=
  let base : SectionValidationResult := ⟨false, sectionName, none, none, 0⟩
  match found with
  | Except.error e => { base with error := some ("Error validating section: " ++ e) }
  | Except.ok false => { base with error := some "Section not found or not visible" }
  | Except.ok true =>
    match rawContent with
    | Except.error e => { base with error := some ("Error validating section: " ++ e) }
    | Except.ok raw =>
      let content := raw.getD ""
      let characterCount := content.length
      if content = "" then
        { base with
          content := some content
          characterCount := characterCount
          error := some "Section has no content" }
      else if characterCount < minLength then
        { base with
          content := some content
          characterCount := characterCount
          error := some ("Section too short (" ++ toString characterCount ++
            " chars, expected " ++ toString minLength ++ "+)") }
      else if sectionPlaceholderPatterns.any (fun pat => includesCI content pat) then
        { base with
          content := some content
          characterCount := characterCount
          error := some "Section contains placeholder text" }
      else
        { base with
          isValid := true
          content := some content
          characterCount := characterCount }

/-! ### Lemmas about the tooltip loop -/

lemma append_ne_empty_left (s t : String) (h : s ≠ "") : (s ++ t) ≠ "" := by
  intro hc
  apply h
  have hlen := congrArg String.length hc
  rw [String.length_append] at hlen
  have h0 : String.length "" = 0 := rfl
  rw [h0] at hlen
  have hz : s.length = 0 := by omega
  cases s with
  | mk data =>
    cases data with
    | nil => rfl
    | cons c cs => simp [String.length] at hz

lemma tooltipDetailOf_invalid_pushes (termRaw : Option String) (tooltipText : String)
    (h : (tooltipDetailOf termRaw tooltipText).isValid = false) :
    pushesError (tooltipDetailOf termRaw tooltipText) = true := by
  simp only [tooltipDetailOf] at h ⊢
  simp only [pushesError]
  split_ifs at h ⊢ with h1 h2 h3 h4 h5
  · simp
  · simp
  · simp
  · have hne : ("Tooltip too short (" ++ toString ((strTrim tooltipText).length) ++
        " chars, minimum 15)") ≠ "" :=
      append_ne_empty_left _ _ (append_ne_empty_left _ _ (by decide))
    simp [hne]
  · have hne : ("Tooltip contains placeholder text: \"" ++ strTrim tooltipText ++ "\"") ≠ "" :=
      append_ne_empty_left _ _ (append_ne_empty_left _ _ (by decide))
    simp [hne]

lemma processTooltips_count (ts : List TooltipElemIO)
    (h : (processTooltips ts).thrown = none) :
    (processTooltips ts).valid + (processTooltips ts).errors.length = ts.length := by
  induction ts with
  | nil => simp [processTooltips]
  | cons t ts ih =>
    cases hr : readTooltipFields t with
    | error msg => simp [processTooltips, hr] at h
    | ok pr =>
      obtain ⟨termRaw, tooltipText⟩ := pr
      have hth : (processTooltips ts).thrown = none := by
        simpa [processTooltips, hr] using h
      have ihh := ih hth
      by_cases hv : (tooltipDetailOf termRaw tooltipText).isValid = true
      · have hp : pushesError (tooltipDetailOf termRaw tooltipText) = false := by
          simp [pushesError, hv]
        simp only [processTooltips, hr, hv, hp, if_true, Bool.false_eq_true, if_false,
          List.nil_append, List.length_cons]
        omega
      · have hv' : (tooltipDetailOf termRaw tooltipText).isValid = false := by
          simpa using hv
        have hp := tooltipDetailOf_invalid_pushes termRaw tooltipText hv'
        simp only [processTooltips, hr, hv', hp, Bool.false_eq_true, if_false, if_true,
          List.length_append, List.length_cons, List.length_nil, List.singleton_append]
        omega

/-- C3: `validateTooltips` reports invalid whenever the selector
fallback locates zero tooltip elements, and reports valid only when
every located tooltip counted as valid and the error list is empty. -/
theorem validateTooltips_aggregate (p : TooltipPageIO) :
    (locateTooltips p = Except.ok [] → (validateTooltips p).isValid = false) ∧
    ((validateTooltips p).isValid = true →
      (validateTooltips p).validTooltips = (validateTooltips p).tooltipCount ∧
      (validateTooltips p).errors = []) := by
  constructor
  · intro h
    simp [validateTooltips, h]
  · intro h
    cases hl : locateTooltips p with
    | error e => simp [validateTooltips, hl] at h
    | ok located =>
      by_cases h0 : located.length = 0
      · simp [validateTooltips, hl, h0] at h
      · cases hth : (processTooltips located).thrown with
        | some msg => simp [validateTooltips, hl, h0, hth] at h
        | none =>
          have hcount := processTooltips_count located hth
          simp only [validateTooltips, hl, hth, h0, if_false] at h
          have h' : 0 < (processTooltips located).valid ∧
              (processTooltips located).errors = [] := by
            simpa [Bool.and_eq_true, List.isEmpty_iff] using h
          obtain ⟨_, herr⟩ := h'
          rw [herr] at hcount
          simp only [validateTooltips, hl, hth, h0, if_false]
          simp only [List.length_nil, Nat.add_zero] at hcount
          exact ⟨hcount, herr⟩

/-- Witness for C3: a page with no tooltip elements under any selector
is invalid; a page with a single well-formed tooltip is counted fully
valid with no errors. -/
theorem validateTooltips_aggregate_witness :
    (validateTooltips ⟨Except.ok [], Except.ok [], Except.ok []⟩).isValid = false ∧
    ((validateTooltips ⟨Except.ok [⟨Except.ok (some "Risk Management"),
        Except.ok (some "Managing potential negative impacts"), Except.ok none,
        Except.ok none⟩], Except.ok [], Except.ok []⟩).validTooltips =
      (validateTooltips ⟨Except.ok [⟨Except.ok (some "Risk Management"),
        Except.ok (some "Managing potential negative impacts"), Except.ok none,
        Except.ok none⟩], Except.ok [], Except.ok []⟩).tooltipCount ∧
     (validateTooltips ⟨Except.ok [⟨Except.ok (some "Risk Management"),
        Except.ok (some "Managing potential negative impacts"), Except.ok none,
        Except.ok none⟩], Except.ok [], Except.ok []⟩).errors = []) :=
  ⟨(validateTooltips_aggregate _).1 rfl,
   (validateTooltips_aggregate _).2 (by decide)⟩

/-- C4: a section whose extracted content contains any denylisted
placeholder phrase (compared case-insensitively) is reported invalid. -/
theorem validateSection_placeholder_invalid (sectionName content : String) (minLength : Nat)
    (h : ∃ pat ∈ sectionPlaceholderPatterns, includesCI content pat = true) :
    (validateSection sectionName (Except.ok true) (Except.ok (some content))
      minLength).isValid = false := by
  have hany : sectionPlaceholderPatterns.any (fun pat => includesCI content pat) = true :=
    List.any_eq_true.mpr (by
      obtain ⟨pat, hmem, hinc⟩ := h
      exact ⟨pat, hmem, hinc⟩)
  by_cases h1 : content = ""
  · simp [validateSection, h1]
  · by_cases h2 : content.length < minLength
    · simp [validateSection, h1, h2]
    · simp [validateSection, h1, h2, hany]

/-- Witness for C4 at content containing "Loading..." in mixed case. -/
theorem validateSection_placeholder_invalid_witness :
    (∃ pat ∈ sectionPlaceholderPatterns,
      includesCI "the results are still lOaDiNg... please stand by" pat = true) ∧
    (validateSection "Strategy" (Except.ok true)
      (Except.ok (some "the results are still lOaDiNg... please stand by")) 10).isValid =
      false :=
  ⟨by decide,
   validateSection_placeholder_invalid "Strategy"
     "the results are still lOaDiNg... please stand by" 10 (by decide)⟩

/-- C5: a section whose extracted content is shorter than `minLength`
is reported invalid, with `characterCount` equal to the content's
length. -/
theorem validateSection_short_invalid (sectionName content : String) (minLength : Nat)
    (h : content.length < minLength) :
    (validateSection sectionName (Except.ok true) (Except.ok (some content))
       minLength).isValid = false ∧
    (validateSection sectionName (Except.ok true) (Except.ok (some content))
       minLength).characterCount = content.length := by
  by_cases h1 : content = ""
  · constructor
    · simp [validateSection, h1]
    · simp [validateSection, h1]
  · constructor
    · simp [validateSection, h1, h]
    · simp [validateSection, h1, h]

/-- Witness for C5: a 2-character content against the default minimum
length of 50. -/
theorem validateSection_short_invalid_witness :
    ("ab" : String).length < 50 ∧
    (validateSection "Story" (Except.ok true) (Except.ok (some "ab")) 50).isValid = false ∧
    (validateSection "Story" (Except.ok true) (Except.ok (some "ab")) 50).characterCount =
      ("ab" : String).length := by
  have h := validateSection_short_invalid "Story" "ab" 50 (by decide)
  exact ⟨by decide, h.1, h.2⟩

/-- C10: the validators convert every rejected page operation into a
returned result: the result is invalid and carries the exception text
(in `error` for `validateSection`, appended to `errors` for
`validateTooltips`); no exception escapes to the caller. -/
theorem validators_catch_exceptions :
    (∀ (sectionName e : String) (rawContent : Except String (Option String))
        (minLength : Nat),
      (validateSection sectionName (Except.error e) rawContent minLength).isValid = false ∧
      (validateSection sectionName (Except.error e) rawContent minLength).error =
        some ("Error validating section: " ++ e)) ∧
    (∀ (sectionName e : String) (minLength : Nat),
      (validateSection sectionName (Except.ok true) (Except.error e) minLength).isValid =
        false ∧
      (validateSection sectionName (Except.ok true) (Except.error e) minLength).error =
        some ("Error validating section: " ++ e)) ∧
    (∀ (p : TooltipPageIO) (e : String), locateTooltips p = Except.error e →
      (validateTooltips p).isValid = false ∧
      ("Error checking tooltips: " ++ e) ∈ (validateTooltips p).errors) ∧
    (∀ (p : TooltipPageIO) (located : List TooltipElemIO) (msg : String),
      locateTooltips p = Except.ok located →
      (processTooltips located).thrown = some msg →
      (validateTooltips p).isValid = false ∧
      ("Error checking tooltips: " ++ msg) ∈ (validateTooltips p).errors) := by
  refine ⟨?_, ?_, ?_, ?_⟩
  · intro sectionName e rawContent minLength
    exact ⟨rfl, rfl⟩
  · intro sectionName e minLength
    exact ⟨rfl, rfl⟩
  · intro p e hl
    simp [validateTooltips, hl]
  · intro p located msg hl hth
    cases located with
    | nil => simp [processTooltips] at hth
    | cons t ts =>
      simp [validateTooltips, hl, hth]

/-- Witness for C10: a rejecting visibility check, a rejecting content
read, a rejecting tooltip-locating call, and a rejecting element read
all surface as invalid results carrying the exception text. -/
theorem validators_catch_exceptions_witness :
    ((validateSection "Strategy" (Except.error "page closed") (Except.ok none) 50).isValid =
        false ∧
     (validateSection "Strategy" (Except.error "page closed") (Except.ok none) 50).error =
        some ("Error validating section: " ++ "page closed")) ∧
    ((validateSection "Strategy" (Except.ok true) (Except.error "node detached") 50).isValid =
        false ∧
     (validateSection "Strategy" (Except.ok true) (Except.error "node detached") 50).error =
        some ("Error validating section: " ++ "node detached")) ∧
    ((validateTooltips ⟨Except.error "network down", Except.ok [],
        Except.ok []⟩).isValid = false ∧
     ("Error checking tooltips: " ++ "network down") ∈
       (validateTooltips ⟨Except.error "network down", Except.ok [],
         Except.ok []⟩).errors) ∧
    ((validateTooltips ⟨Except.ok [⟨Except.error "element detached", Except.ok none,
        Except.ok none, Except.ok none⟩], Except.ok [], Except.ok []⟩).isValid = false ∧
     ("Error checking tooltips: " ++ "element detached") ∈
       (validateTooltips ⟨Except.ok [⟨Except.error "element detached", Except.ok none,
         Except.ok none, Except.ok none⟩], Except.ok [], Except.ok []⟩).errors) :=
  ⟨validators_catch_exceptions.1 "Strategy" "page closed" (Except.ok none) 50,
   validators_catch_exceptions.2.1 "Strategy" "node detached" 50,
   validators_catch_exceptions.2.2.1 ⟨Except.error "network down", Except.ok [],
     Except.ok []⟩ "network down" rfl,
   validators_catch_exceptions.2.2.2 ⟨Except.ok [⟨Except.error "element detached",
     Except.ok none, Except.ok none, Except.ok none⟩], Except.ok [], Except.ok []⟩
     [⟨Except.error "element detached", Except.ok none, Except.ok none, Except.ok none⟩]
     "element detached" rfl rfl⟩

/-! ## Readiness checker (tests/helpers/readiness-checker.ts)

`checkAppReadiness` performs up to `maxRetries = 3` HTTP GET attempts;
`outcomes k` is what the k-th `page.request.get` produces: either a
response with its status and measured response time, or a rejected
request with its message. -/

inductive HttpAttempt where
  | response (status : Nat) (responseTime : Nat)
  | failure (msg : String)

structure ReadinessCheckResult where
  isReady : Bool
  error : Option String
  responseTime : Option Nat

/-- The loop of `checkAppReadiness` (source lines 17-62), by recursion
on the remaining iterations; the second component of the result counts
the requests that were made. -/
def checkLoop (outcomes : Nat → HttpAttempt) (attempt : Nat) :
    Nat → ReadinessCheckResult × Nat
  | 0 => (⟨false, some "App failed to respond after all retry attempts", none⟩, 0)
  | fuel + 1 =>
    match outcomes attempt with
    | HttpAttempt.response s rt =>
      if s = 200 then
        (⟨true, none, some rt⟩, 1)
      else if attempt = 3 then
        (⟨false, some ("App responded with status " ++ toString s), some rt⟩, 1)
      else
        let r := checkLoop outcomes (attempt + 1) fuel
        (r.1, r.2 + 1)
    | HttpAttempt.failure msg =>
      if attempt = 3 then
        (⟨false, some ("Connection failed: " ++ msg), none⟩, 1)
      else
        let r := checkLoop outcomes (attempt + 1) fuel
        (r.1, r.2 + 1)

/-- `checkAppReadiness(page)`: three attempts, starting at attempt 1. -/
def checkAppReadiness (outcomes : Nat → HttpAttempt) : ReadinessCheckResult × Nat :=
  checkLoop outcomes 1 3

/-- The claimed success criterion of C6: the response status is
2xx-equivalent.  The source accepts only the exact status 200, which is
what the counterexample below exhibits. -/
def is2xx (a : HttpAttempt) : Bool :=
  match a with
  | HttpAttempt.response s _ => 200 ≤ s && s ≤ 299
  | HttpAttempt.failure _ => false

/-- Whether an attempt outcome is what the source actually treats as
success: a response with status exactly 200. -/
def isStatus200 (a : HttpAttempt) : Bool :=
  match a with
  | HttpAttempt.response s _ => s = 200
  | HttpAttempt.failure _ => false

/-- Counterexample to C6 as stated: a server that always answers with
status 204 (a 2xx status) is never treated as ready by
`checkAppReadiness`, which compares the status to 200 exactly. -/
theorem checkAppReadiness_not_any2xx :
    is2xx (HttpAttempt.response 204 10) = true ∧
    (checkAppReadiness (fun _ => HttpAttempt.response 204 10)).1.isReady = false := by
  constructor
  · rfl
  · rfl

/-- C6 (amended): success is a response with status exactly 200 (not
any 2xx status); a first attempt answering 200 yields a ready result at
once, and when none of the three attempts yields status 200 the loop
makes exactly 3 requests and returns a failure result object with
isReady = false and a non-empty error message — a returned value, never
a thrown exception (the embedding of the function is total by
construction). -/
theorem checkAppReadiness_success_and_retry :
    (∀ (outcomes : Nat → HttpAttempt) (rt : Nat),
      outcomes 1 = HttpAttempt.response 200 rt →
      (checkAppReadiness outcomes).1.isReady = true ∧
      (checkAppReadiness outcomes).2 = 1) ∧
    (∀ outcomes : Nat → HttpAttempt,
      (∀ k, 1 ≤ k → k ≤ 3 → isStatus200 (outcomes k) = false) →
      (checkAppReadiness outcomes).2 = 3 ∧
      (checkAppReadiness outcomes).1.isReady = false ∧
      (checkAppReadiness outcomes).1.error ≠ none) := by
  constructor
  · intro outcomes rt h
    constructor
    · simp [checkAppReadiness, checkLoop, h]
    · simp [checkAppReadiness, checkLoop, h]
  intro outcomes h
  have h1 := h 1 (by omega) (by omega)
  have h2 := h 2 (by omega) (by omega)
  have h3 := h 3 (by omega) (by omega)
  cases o1 : outcomes 1 with
  | response s1 rt1 =>
    have hs1 : ¬s1 = 200 := by simpa [isStatus200, o1] using h1
    cases o2 : outcomes 2 with
    | response s2 rt2 =>
      have hs2 : ¬s2 = 200 := by simpa [isStatus200, o2] using h2
      cases o3 : outcomes 3 with
      | response s3 rt3 =>
        have hs3 : ¬s3 = 200 := by simpa [isStatus200, o3] using h3
        simp [checkAppReadiness, checkLoop, o1, o2, o3, hs1, hs2, hs3]
      | failure m3 =>
        simp [checkAppReadiness, checkLoop, o1, o2, o3, hs1, hs2]
    | failure m2 =>
      cases o3 : outcomes 3 with
      | response s3 rt3 =>
        have hs3 : ¬s3 = 200 := by simpa [isStatus200, o3] using h3
        simp [checkAppReadiness, checkLoop, o1, o2, o3, hs1, hs3]
      | failure m3 =>
        simp [checkAppReadiness, checkLoop, o1, o2, o3, hs1]
  | failure m1 =>
    cases o2 : outcomes 2 with
    | response s2 rt2 =>
      have hs2 : ¬s2 = 200 := by simpa [isStatus200, o2] using h2
      cases o3 : outcomes 3 with
      | response s3 rt3 =>
        have hs3 : ¬s3 = 200 := by simpa [isStatus200, o3] using h3
        simp [checkAppReadiness, checkLoop, o1, o2, o3, hs2, hs3]
      | failure m3 =>
        simp [checkAppReadiness, checkLoop, o1, o2, o3, hs2]
    | failure m2 =>
      cases o3 : outcomes 3 with
      | response s3 rt3 =>
        have hs3 : ¬s3 = 200 := by simpa [isStatus200, o3] using h3
        simp [checkAppReadiness, checkLoop, o1, o2, o3, hs3]
      | failure m3 =>
        simp [checkAppReadiness, checkLoop, o1, o2, o3]

/-- Witness for the amended C6: a server that answers 200 at once is
ready after one request; a server that always answers 503 exhausts the
three attempts and yields a failure result. -/
theorem checkAppReadiness_success_and_retry_witness :
    ((checkAppReadiness (fun _ => HttpAttempt.response 200 25)).1.isReady = true ∧
     (checkAppReadiness (fun _ => HttpAttempt.response 200 25)).2 = 1) ∧
    ((checkAppReadiness (fun _ => HttpAttempt.response 503 10)).2 = 3 ∧
     (checkAppReadiness (fun _ => HttpAttempt.response 503 10)).1.isReady = false ∧
     (checkAppReadiness (fun _ => HttpAttempt.response 503 10)).1.error ≠ none) :=
  ⟨checkAppReadiness_success_and_retry.1 (fun _ => HttpAttempt.response 200 25) 25 rfl,
   checkAppReadiness_success_and_retry.2 (fun _ => HttpAttempt.response 503 10)
     (fun _ _ _ => rfl)⟩

/-! ## Layout centering (tests/layout-center.spec.ts) -/

structure BoundingBox where
  x : ℚ
  y : ℚ
  width : ℚ
  height : ℚ

/-- `wrapperCenter = box.x + box.width / 2` (source line 59). -/
def wrapperCenter (b : BoundingBox) : ℚ := b.x + b.width / 2

/-- `offset = |wrapperCenter - viewportWidth / 2|` (source lines 59-61). -/
def centeringOffset (b : BoundingBox) (viewportWidth : ℚ) : ℚ :=
  |wrapperCenter b - viewportWidth / 2|

/-- The assertion of the basic centering scenario (source lines 73-75):
offset within the 5-pixel tolerance. -/
def centeringCheck (b : BoundingBox) (viewportWidth : ℚ) : Bool :=
  decide (centeringOffset b viewportWidth ≤ 5)

/-- The assertions of the dynamic-content scenario (source lines
231-239): the final offset is within the 5-pixel tolerance, and the
change of offset is within 5 pixels on viewports at most 768 pixels
wide and within 2 pixels otherwise. -/
def dynamicContentCheck (initialBox finalBox : BoundingBox) (viewportWidth : ℚ) : Bool :=
  let initialOffset := centeringOffset initialBox viewportWidth
  let finalOffset := centeringOffset finalBox viewportWidth
  let centeringChange := |finalOffset - initialOffset|
  let isMobile := decide (viewportWidth ≤ 768)
  let maxChange : ℚ := if isMobile then 5 else 2
  decide (finalOffset ≤ 5) && decide (centeringChange ≤ maxChange)

/-- C7: the dynamic-content scenario passes exactly when the post-load
offset satisfies the absolute 5-pixel tolerance and the before/after
offset change satisfies the viewport-dependent delta tolerance (5
pixels when the viewport is at most 768 pixels wide, 2 pixels
otherwise). -/
theorem dynamicContentCheck_spec (initialBox finalBox : BoundingBox) (viewportWidth : ℚ) :
    dynamicContentCheck initialBox finalBox viewportWidth = true ↔
      (centeringOffset finalBox viewportWidth ≤ 5 ∧
       (viewportWidth ≤ 768 →
         |centeringOffset finalBox viewportWidth -
           centeringOffset initialBox viewportWidth| ≤ 5) ∧
       (¬viewportWidth ≤ 768 →
         |centeringOffset finalBox viewportWidth -
           centeringOffset initialBox viewportWidth| ≤ 2)) := by
  by_cases hm : viewportWidth ≤ 768
  · simp [dynamicContentCheck, hm]
  · simp [dynamicContentCheck, hm]

/-- Witness for C7: a perfectly centered wrapper before and after the
dynamic content loads passes the scenario on a desktop viewport. -/
theorem dynamicContentCheck_spec_witness :
    dynamicContentCheck ⟨0, 0, 1024, 700⟩ ⟨0, 0, 1024, 1400⟩ 1024 = true :=
  (dynamicContentCheck_spec ⟨0, 0, 1024, 700⟩ ⟨0, 0, 1024, 1400⟩ 1024).mpr
    (by norm_num [centeringOffset, wrapperCenter])

/-- C8: for a wrapper whose bounding box starts at x = 0 and whose
width equals the viewport width, the computed centering offset is
exactly 0, and the 5-pixel tolerance assertion passes. -/
theorem centeringOffset_exact_center (y height viewportWidth : ℚ) :
    centeringOffset ⟨0, y, viewportWidth, height⟩ viewportWidth = 0 ∧
    centeringCheck ⟨0, y, viewportWidth, height⟩ viewportWidth = true := by
  have h0 : centeringOffset ⟨0, y, viewportWidth, height⟩ viewportWidth = 0 := by
    simp [centeringOffset, wrapperCenter]
  refine ⟨h0, ?_⟩
  simp only [centeringCheck, h0]
  norm_num

end GPTTutor
